import Mathlib

/-!
Shallow embedding of the wrapper layer of the MedicalAi repository
(client/src/lib/aiService.ts and the firebase configuration module).

Each asynchronous adapter method is modelled as a pure function over
explicit parameters describing the host environment and the external
services: the generative service is an oracle mapping the submitted
request to either a text result or a thrown error message; the file
reader is an outcome flag (successful read vs failed read); browser
speech events are explicit event traces with millisecond timestamps.
Promise settlement is modelled by an explicit first-settlement-wins
state, mirroring the ECMAScript rule that a second resolve or reject
of an already settled promise is a silent no-op.
-/

namespace MedicalAi

/-! ### JavaScript string primitives used by the source -/

/-- ECMAScript WhiteSpace and LineTerminator test, as used by
String.prototype.trim (space, tab, LF, CR, VT, FF, NBSP, BOM, LS, PS). -/
def jsWhitespaceChar (c : Char) : Bool :=
  c == ' ' || c == '\t' || c == '\n' || c == '\r' ||
  c.toNat == 0x0b || c.toNat == 0x0c || c.toNat == 0xa0 ||
  c.toNat == 0xfeff || c.toNat == 0x2028 || c.toNat == 0x2029

/-- Model of JavaScript String.prototype.trim: remove leading and trailing
whitespace. Defined over the character list so it evaluates in the kernel. -/
def jsTrim (s : String) : String :=
  ⟨((s.data.dropWhile jsWhitespaceChar).reverse.dropWhile jsWhitespaceChar).reverse⟩

/-- Model of Number.prototype.toString for a nonnegative integer (as produced
by Date.now()): the decimal digit string, with no leading zeros. -/
def jsNatToString (n : Nat) : String :=
  if n = 0 then "0" else ⟨((Nat.digits 10 n).map Nat.digitChar).reverse⟩

/-- Decimal decoding, a left inverse of jsNatToString used to prove that
distinct timestamps yield distinct id strings. -/
def decodeDec (s : String) : Nat :=
  Nat.ofDigits 10 (s.data.reverse.map (fun c => c.toNat - 48))

/-- Model of JavaScript String.prototype.split with separator ",": the list
of comma-free segments. splitComma [] = [[]] because splitting the empty
string yields one empty segment. -/
def splitComma : List Char → List (List Char)
  | [] => [[]]
  | c :: rest =>
    if c = ',' then [] :: splitComma rest
    else
      match splitComma rest with
      | [] => [[c]]
      | seg :: segs => (c :: seg) :: segs

/-- The substring strictly after the first comma of a character list, or
none when the list has no comma. This is the phrasing used by the claim
about the data-URL prefix strip. -/
def afterFirstComma : List Char → Option (List Char)
  | [] => none
  | c :: rest => if c = ',' then some rest else afterFirstComma rest

/-! ### Base64 encoding, as performed by FileReader.readAsDataURL -/

/-- The standard base64 alphabet. -/
def b64Alphabet : List Char :=
  "ABCDEFGHIJKLMNOPQRSTUVWXYZabcdefghijklmnopqrstuvwxyz0123456789+/".data

/-- The base64 character for a 6-bit group. -/
def b64Char (n : Nat) : Char := b64Alphabet.getD (n % 64) 'A'

/-- Standard base64 encoding of a byte list, three bytes to four characters,
padded with the character = . -/
def base64Encode : List Nat → List Char
  | [] => []
  | [a] => [b64Char (a / 4), b64Char (a % 4 * 16), '=', '=']
  | [a, b] => [b64Char (a / 4), b64Char (a % 4 * 16 + b / 16), b64Char (b % 16 * 4), '=']
  | a :: b :: c :: rest =>
    b64Char (a / 4) :: b64Char (a % 4 * 16 + b / 16) ::
    b64Char (b % 16 * 4 + c / 64) :: b64Char (c % 64) :: base64Encode rest

/-! ### Chat adapter (medicalChatService.sendMessage) -/

inductive Role where
  | user
  | assistant
deriving DecidableEq, Repr

/-- The Message record returned by sendMessage. The timestamp is the
millisecond clock value (Date.now()) at which the record was created. -/
structure Message where
  id : String
  role : Role
  content : String
  timestamp : Nat
deriving DecidableEq, Repr

/-- Outcome of one call to the external generative service: either the text
of the response (result.response.text()), or a thrown error carrying the
message of the underlying exception. -/
inductive GenResult where
  | ok (text : String)
  | threw (message : String)

/-- The fixed instruction template of sendMessage, concatenated with the
user text exactly as in the source. -/
def chatPrompt (message : String) : String :=
  "You are an AI medical assistant. Your role is to:\n1. Ask relevant questions about symptoms\n2. Provide preliminary analysis\n3. Recommend appropriate medications and treatments\n4. Give recovery procedures and lifestyle advice\n5. Always remind users to seek professional medical help for serious conditions\n\nUser message: " ++ message ++ "\n\nPlease respond in a professional, caring manner."

/-- medicalChatService.sendMessage. Parameters beyond the user text: the
current clock value (Date.now()) at result construction, and the oracle
gen for the external generative call on the submitted prompt. The source
checks the raw response text for JavaScript falsiness (empty string) and
otherwise returns the trimmed text; every exception is caught and rewrapped
with the prefix Failed to get AI response. -/
def sendMessage (message : String) (now : Nat) (gen : String → GenResult) :
    Except String Message :=
  match gen (chatPrompt message) with
  | GenResult.threw m => Except.error ("Failed to get AI response: " ++ m)
  | GenResult.ok text =>
    if text = "" then
      Except.error "Failed to get AI response: Empty response from AI"
    else
      Except.ok
        { id := jsNatToString now
          role := Role.assistant
          content := jsTrim text
          timestamp := now }

/-! ### Image analysis adapter (medicalAnalysisService.analyzeImage) -/

/-- A browser File value: name, MIME type (the type field), content bytes. -/
structure JsFile where
  name : String
  type : String
  bytes : List Nat
deriving DecidableEq, Repr

/-- The data URL produced by FileReader.readAsDataURL on a successful read:
data: , the MIME type of the blob, ;base64, and the base64 payload. -/
def dataUrl (f : JsFile) : List Char :=
  "data:".data ++ f.type.data ++ ";base64,".data ++ base64Encode f.bytes

/-- Host outcome of the file read performed by the FileReader. -/
inductive ReadOutcome where
  | success
  | failure
deriving DecidableEq, Repr

/-- The inner promise of analyzeImage. The source registers only an
onloadend handler that resolves with reader.result; onloadend fires after
both successful and failed reads, and reader.result is the data URL on
success and null on failure, so the promise always resolves (never
rejects): the error side of the Except is never used. -/
def readerPromise (f : JsFile) : ReadOutcome → Except String (Option (List Char))
  | ReadOutcome.success => Except.ok (some (dataUrl f))
  | ReadOutcome.failure => Except.ok none

/-- The fixed instruction template of analyzeImage, exactly as in the
source. -/
def analysisPrompt : String :=
  "You are a medical professional analyzing this medical image. Please provide:\n1. A detailed analysis of what you observe\n2. Any potential abnormalities or concerns\n3. Recommendations for follow-up\n4. Important notes for the patient\n\nPlease be thorough but explain in terms a patient can understand."

/-- The request submitted to the vision model: the prompt string and the
inlineData pair. data is index 1 of the comma-split of the data URL
(undefined, i.e. none, when the split has fewer than two segments);
mimeType is the type field of the file. -/
structure VisionRequest where
  prompt : String
  data : Option (List Char)
  mimeType : String
deriving DecidableEq, Repr

/-- The inlineData construction of the source applied to a reader result
string: data.split with separator comma, index 1. -/
def mkVisionRequest (f : JsFile) (dataStr : List Char) : VisionRequest :=
  { prompt := analysisPrompt
    data := (splitComma dataStr).get? 1
    mimeType := f.type }

/-- The request analyzeImage submits after a successful read of the file. -/
def analyzeRequest (f : JsFile) : VisionRequest :=
  mkVisionRequest f (dataUrl f)

/-- Host-engine detail: the message text of the TypeError raised by
evaluating data.split when data is null (the text differs between engines,
so it is a parameter of the model rather than a constant). -/
structure Host where
  nullSplitMessage : String

/-- medicalAnalysisService.analyzeImage. Parameters: the file, the host
outcome of the file read, the oracle gen for the external vision call, and
the host detail for the null TypeError message. After a failed read the
awaited reader promise resolves with null, and the subsequent split of
null throws a TypeError that the surrounding catch rewraps; an empty
response text throws inside the try and is rewrapped the same way. -/
def analyzeImage (f : JsFile) (read : ReadOutcome)
    (gen : VisionRequest → GenResult) (host : Host) : Except String String :=
  match readerPromise f read with
  | Except.error e => Except.error ("Failed to analyze medical image: " ++ e)
  | Except.ok none =>
    Except.error ("Failed to analyze medical image: " ++ host.nullSplitMessage)
  | Except.ok (some dataStr) =>
    match gen (mkVisionRequest f dataStr) with
    | GenResult.threw m => Except.error ("Failed to analyze medical image: " ++ m)
    | GenResult.ok text =>
      if text = "" then
        Except.error "Failed to analyze medical image: Empty response from AI"
      else
        Except.ok text

/-! ### Voice adapter (voiceService) -/

/-- The part of the browser window object the module reads at load time:
whether the webkitSpeechRecognition constructor exists, and whether the
speechSynthesis object exists. -/
structure HostWindow where
  webkitSpeechRecognition : Option Unit
  speechSynthesis : Option Unit
deriving DecidableEq, Repr

/-- The voiceService object: its recognition and synthesis fields, each
null (none) or a live handle. -/
structure VoiceService where
  recognition : Option Unit
  synthesis : Option Unit
deriving DecidableEq, Repr

/-- Construction of the voiceService object at module load. When window is
defined the source evaluates new window.webkitSpeechRecognition()
unconditionally, so a defined window without that constructor makes the
module itself throw a TypeError (the message text is engine dependent);
the synthesis field is window.speechSynthesis, which is simply undefined
when absent and causes no throw here. -/
def voiceServiceInit : Option HostWindow → Except String VoiceService
  | none => Except.ok { recognition := none, synthesis := none }
  | some w =>
    match w.webkitSpeechRecognition with
    | none => Except.error "TypeError: window.webkitSpeechRecognition is not a constructor"
    | some _ => Except.ok { recognition := some (), synthesis := w.speechSynthesis }

/-- Host events of one speech recognition session. -/
inductive RecEvent where
  | result (transcript : String)
  | error (message : String)
deriving DecidableEq, Repr

/-- Observable actions of startListening on the host. -/
inductive ListenAction where
  | startRecognition
deriving DecidableEq, Repr

/-- Settlement produced by the recognition event trace: the first event
settles the promise (first result resolves with its transcript, first
error rejects); later events hit an already settled promise and are
ignored; an empty trace leaves the promise pending (none). -/
def listenOutcome : List RecEvent → Option (Except String String)
  | [] => none
  | RecEvent.result t :: _ => some (Except.ok t)
  | RecEvent.error e :: _ => some (Except.error e)

/-- voiceService.startListening: with a null recognition handle the
executor rejects at once with the fixed string and performs no host
action; otherwise it installs the handlers, starts one session, and the
event trace determines settlement. -/
def startListening (vs : VoiceService) (events : List RecEvent) :
    List ListenAction × Option (Except String String) :=
  match vs.recognition with
  | none => ([], some (Except.error "Speech recognition not supported"))
  | some _ => ([ListenAction.startRecognition], listenOutcome events)

/-- Host events of one speech synthesis utterance, timestamped in
milliseconds from the start of the call. -/
inductive SynthEvent where
  | ended
  | errored (message : String)
deriving DecidableEq, Repr

/-- Observable actions of speak on the host. -/
inductive SpeakAction where
  | armTimer (ms : Nat)
  | speakUtterance (text : String)
deriving DecidableEq, Repr

/-- Settlement state of the promise returned by speak: the first
settlement with its time, and whether clearTimeout has run. -/
structure SpeakState where
  settled : Option (Except String Unit)
  settleTime : Option Nat
  timerCleared : Bool
deriving Repr

/-- A resolve or reject attempt at time t: it settles a pending promise
and is a silent no-op on an already settled one (the ECMAScript
first-settlement-wins rule). -/
def trySettle (s : SpeakState) (o : Except String Unit) (t : Nat) : SpeakState :=
  match s.settled with
  | some _ => s
  | none => { s with settled := some o, settleTime := some t }

/-- Effect of one synthesis event. The second onend assignment of the
source overwrites the first before synthesis.speak runs, so the effective
end handler clears the fallback timer and resolves; the error handler
rejects and does not clear the timer. -/
def speakStep (s : SpeakState) : Nat × SynthEvent → SpeakState
  | (t, SynthEvent.ended) => trySettle { s with timerCleared := true } (Except.ok ()) t
  | (t, SynthEvent.errored e) => trySettle s (Except.error e) t

/-- Run of the speak executor over the timed event trace: the fallback
timer fires at 10000 ms unless cleared first, attempting a resolve; it is
interleaved before any host event timestamped at or after 10000 ms, and
fires after the whole trace when the trace ends without clearing it. -/
def speakRun (s : SpeakState) : List (Nat × SynthEvent) → SpeakState
  | [] => if s.timerCleared = false then trySettle s (Except.ok ()) 10000 else s
  | ev :: rest =>
    if 10000 ≤ ev.fst ∧ s.timerCleared = false then
      speakRun (speakStep (trySettle s (Except.ok ()) 10000) ev) rest
    else
      speakRun (speakStep s ev) rest

/-- The state of the promise when the executor has just installed the
handlers and armed the timer. -/
def initSpeakState : SpeakState :=
  { settled := none, settleTime := none, timerCleared := false }

/-- voiceService.speak: with a null synthesis handle the executor rejects
at once with the fixed string, arming no timer and speaking no utterance;
otherwise it arms the 10000 ms fallback timer, submits the utterance, and
the event trace determines settlement. -/
def speak (vs : VoiceService) (text : String) (events : List (Nat × SynthEvent)) :
    List SpeakAction × SpeakState :=
  match vs.synthesis with
  | none =>
    ([], { settled := some (Except.error "Speech synthesis not supported")
           settleTime := some 0
           timerCleared := false })
  | some _ =>
    ([SpeakAction.armTimer 10000, SpeakAction.speakUtterance text],
     speakRun initSpeakState events)

/-! ### Configuration modules -/

/-- The environment values read by the two modules at load time; none
models an undefined environment variable. -/
structure Env where
  geminiApiKey : Option String
  firebaseApiKey : Option String
  firebaseAuthDomain : Option String
  firebaseProjectId : Option String
  firebaseStorageBucket : Option String
  firebaseMessagingSenderId : Option String
  firebaseAppId : Option String

/-- JavaScript falsiness of an environment string value: undefined and the
empty string are falsy. -/
def jsFalsy : Option String → Bool
  | none => true
  | some s => s == ""

/-- Load-time check of the aiService module: reads the Gemini API key
environment value and throws when it is falsy; otherwise the key is handed
to the generative client. -/
def initGemini (env : Env) : Except String String :=
  if jsFalsy env.geminiApiKey then Except.error "Gemini API key is required"
  else Except.ok (env.geminiApiKey.getD "")

/-- The configuration record handed to the remote-store client. -/
structure FirebaseConfig where
  apiKey : Option String
  authDomain : Option String
  projectId : Option String
  storageBucket : Option String
  messagingSenderId : Option String
  appId : Option String
deriving DecidableEq

/-- Load-time behaviour of the firebase module: the six environment values
are packed into the configuration record and passed to the remote-service
client with no local check of any kind, so this step is total: a missing
value flows through as undefined. -/
def initFirebase (env : Env) : FirebaseConfig :=
  { apiKey := env.firebaseApiKey
    authDomain := env.firebaseAuthDomain
    projectId := env.firebaseProjectId
    storageBucket := env.firebaseStorageBucket
    messagingSenderId := env.firebaseMessagingSenderId
    appId := env.firebaseAppId }

/-! ### Helper lemmas: decimal id strings -/

/-- decodeDec is a left inverse of jsNatToString. -/
theorem decodeDec_jsNatToString (n : Nat) : decodeDec (jsNatToString n) = n := by
  unfold jsNatToString decodeDec
  split
  · rename_i h
    subst h
    rfl
  · simp only [String.data]
    rw [List.reverse_reverse, List.map_map]
    have hcongr : (Nat.digits 10 n).map ((fun c => c.toNat - 48) ∘ Nat.digitChar)
        = (Nat.digits 10 n).map id := by
      apply List.map_congr_left
      intro d hdm
      have hlt : d < 10 := Nat.digits_lt_base (by norm_num) hdm
      have h10 : ∀ e : Fin 10,
          ((fun c => c.toNat - 48) ∘ Nat.digitChar) (e : Nat) = id (e : Nat) := by decide
      exact h10 ⟨d, hlt⟩
    rw [hcongr, List.map_id]
    exact Nat.ofDigits_digits 10 n

/-- Distinct clock values print to distinct id strings. -/
theorem jsNatToString_injective {m n : Nat} (h : jsNatToString m = jsNatToString n) :
    m = n := by
  have hm := decodeDec_jsNatToString m
  rw [h, decodeDec_jsNatToString] at hm
  exact hm.symm

/-! ### Helper lemmas: base64 and comma splitting -/

/-- No base64 digit is a comma. -/
theorem b64Char_ne_comma (n : Nat) : b64Char n ≠ ',' := by
  have hlt : n % 64 < 64 := Nat.mod_lt _ (by norm_num)
  have hall : ∀ i : Fin 64, b64Alphabet.getD (i : Nat) 'A' ≠ ',' := by decide
  exact hall ⟨n % 64, hlt⟩

/-- A base64 encoding never contains a comma. -/
theorem base64Encode_no_comma (bs : List Nat) : (',' : Char) ∉ base64Encode bs := by
  induction bs using base64Encode.induct with
  | case1 =>
    simp [base64Encode]
  | case2 a =>
    intro hmem
    simp only [base64Encode, List.mem_cons, List.not_mem_nil, or_false] at hmem
    rcases hmem with h | h | h | h
    · exact b64Char_ne_comma _ h.symm
    · exact b64Char_ne_comma _ h.symm
    · exact absurd h (by decide)
    · exact absurd h (by decide)
  | case3 a b =>
    intro hmem
    simp only [base64Encode, List.mem_cons, List.not_mem_nil, or_false] at hmem
    rcases hmem with h | h | h | h
    · exact b64Char_ne_comma _ h.symm
    · exact b64Char_ne_comma _ h.symm
    · exact b64Char_ne_comma _ h.symm
    · exact absurd h (by decide)
  | case4 a b c rest ih =>
    intro hmem
    simp only [base64Encode, List.mem_cons] at hmem
    rcases hmem with h | h | h | h | h
    · exact b64Char_ne_comma _ h.symm
    · exact b64Char_ne_comma _ h.symm
    · exact b64Char_ne_comma _ h.symm
    · exact b64Char_ne_comma _ h.symm
    · exact ih h

/-- Splitting a comma-free list yields that single segment. -/
theorem splitComma_no_comma {l : List Char} (h : (',' : Char) ∉ l) :
    splitComma l = [l] := by
  induction l with
  | nil => rfl
  | cons c rest ih =>
    have hc : ¬ c = ',' := fun e => h (by simp [e])
    have hrest : (',' : Char) ∉ rest := fun m => h (List.mem_cons_of_mem _ m)
    simp only [splitComma, if_neg hc, ih hrest]

/-- Splitting past a comma-free prefix peels off that prefix as the first
segment. -/
theorem splitComma_append {a : List Char} (b : List Char) (h : (',' : Char) ∉ a) :
    splitComma (a ++ ',' :: b) = a :: splitComma b := by
  induction a with
  | nil =>
    simp [splitComma]
  | cons c rest ih =>
    have hc : ¬ c = ',' := fun e => h (by simp [e])
    have hrest : (',' : Char) ∉ rest := fun m => h (List.mem_cons_of_mem _ m)
    simp only [List.cons_append, splitComma, if_neg hc, List.append_eq, ih hrest]

/-- The substring after the first comma, when a comma-free prefix precedes
that comma. -/
theorem afterFirstComma_append {a : List Char} (b : List Char) (h : (',' : Char) ∉ a) :
    afterFirstComma (a ++ ',' :: b) = some b := by
  induction a with
  | nil =>
    simp [afterFirstComma]
  | cons c rest ih =>
    have hc : ¬ c = ',' := fun e => h (by simp [e])
    have hrest : (',' : Char) ∉ rest := fun m => h (List.mem_cons_of_mem _ m)
    simp only [List.cons_append, afterFirstComma, if_neg hc]
    exact ih hrest

/-- The data URL splits as a comma-free prefix, the comma, and the base64
payload. -/
theorem dataUrl_decomp (f : JsFile) :
    dataUrl f =
      ("data:".data ++ f.type.data ++ ";base64".data) ++ ',' :: base64Encode f.bytes := by
  unfold dataUrl
  have hsep : (";base64,".data : List Char) = ";base64".data ++ [','] := by decide
  rw [hsep]
  simp [List.append_assoc]

/-- When the MIME type is comma free, everything before the payload comma
of the data URL is comma free. -/
theorem dataUrl_prefix_no_comma {f : JsFile} (h : (',' : Char) ∉ f.type.data) :
    (',' : Char) ∉ ("data:".data ++ f.type.data ++ ";base64".data) := by
  intro hmem
  rcases List.mem_append.mp hmem with h1 | h2
  · rcases List.mem_append.mp h1 with h3 | h4
    · exact absurd h3 (by decide)
    · exact h h4
  · exact absurd h2 (by decide)

/-! ### Helper lemmas: speak promise settlement -/

/-- Invariant of the speak executor state: settlement value and time exist
together, any settlement time is within the 10000 ms ceiling, and the
fallback timer can only have been cleared by the end handler, which also
settles, so a pending promise still has its timer armed. -/
structure SpeakInv (s : SpeakState) : Prop where
  sync : s.settled.isSome = s.settleTime.isSome
  le : ∀ t, s.settleTime = some t → t ≤ 10000
  pending : s.settled = none → s.timerCleared = false

/-- A settle attempt leaves the state settled. -/
theorem trySettle_isSome (s : SpeakState) (o : Except String Unit) (t : Nat) :
    (trySettle s o t).settled.isSome = true := by
  unfold trySettle
  cases h : s.settled <;> simp [h]

/-- A settle attempt on an already settled state is the identity. -/
theorem trySettle_of_settled {s : SpeakState} {o : Except String Unit}
    (h : s.settled = some o) (v : Except String Unit) (t : Nat) :
    trySettle s v t = s := by
  unfold trySettle
  rw [h]

/-- A settle attempt within the ceiling preserves the invariant. -/
theorem speakInv_trySettle {s : SpeakState} (hs : SpeakInv s)
    {o : Except String Unit} {t : Nat} (ht : t ≤ 10000) :
    SpeakInv (trySettle s o t) := by
  unfold trySettle
  cases h : s.settled with
  | some v => exact hs
  | none =>
    refine ⟨rfl, ?_, ?_⟩
    · intro u hu
      simp only [Option.some.injEq] at hu
      exact hu ▸ ht
    · intro hcontra
      simp at hcontra

/-- One synthesis event preserves the invariant, provided its timestamp is
within the ceiling or the state is already settled (the run function fires
the timer first in every other case). -/
theorem speakInv_speakStep {s : SpeakState} (hs : SpeakInv s) (ev : Nat × SynthEvent)
    (h : ev.fst ≤ 10000 ∨ s.settled.isSome = true) : SpeakInv (speakStep s ev) := by
  obtain ⟨t, e⟩ := ev
  cases e with
  | ended =>
    cases hset : s.settled with
    | some v =>
      have heq : speakStep s (t, SynthEvent.ended) = { s with timerCleared := true } := by
        unfold speakStep trySettle
        simp [hset]
      rw [heq]
      exact ⟨hs.sync, hs.le, fun hc => by rw [hset] at hc; cases hc⟩
    | none =>
      have ht : t ≤ 10000 := by
        rcases h with h | h
        · exact h
        · rw [hset] at h; simp at h
      have heq : speakStep s (t, SynthEvent.ended) =
          { s with timerCleared := true, settled := some (Except.ok ()), settleTime := some t } := by
        unfold speakStep trySettle
        simp [hset]
      rw [heq]
      refine ⟨rfl, ?_, ?_⟩
      · intro u hu
        simp only [Option.some.injEq] at hu
        exact hu ▸ ht
      · intro hc
        simp at hc
  | errored m =>
    cases hset : s.settled with
    | some v =>
      have heq : speakStep s (t, SynthEvent.errored m) = s := by
        unfold speakStep
        exact trySettle_of_settled hset _ _
      rw [heq]
      exact hs
    | none =>
      have ht : t ≤ 10000 := by
        rcases h with h | h
        · exact h
        · rw [hset] at h; simp at h
      exact speakInv_trySettle hs ht

/-- From a settled invariant state, extract the settlement time bound. -/
theorem speakInv_extract {s : SpeakState} (hs : SpeakInv s) {o : Except String Unit}
    (h : s.settled = some o) :
    ∃ t, s.settleTime = some t ∧ t ≤ 10000 := by
  have hsome : s.settleTime.isSome = true := by
    rw [← hs.sync, h]
    rfl
  obtain ⟨t, ht⟩ := Option.isSome_iff_exists.mp hsome
  exact ⟨t, ht, hs.le t ht⟩

/-- Main settlement lemma: from any invariant state, the run over any event
trace ends settled, at a time within the 10000 ms ceiling. -/
theorem speakRun_settles (events : List (Nat × SynthEvent)) :
    ∀ s : SpeakState, SpeakInv s →
      ∃ o t, (speakRun s events).settled = some o ∧
        (speakRun s events).settleTime = some t ∧ t ≤ 10000 := by
  induction events with
  | nil =>
    intro s hs
    unfold speakRun
    by_cases hc : s.timerCleared = false
    · rw [if_pos hc]
      cases hset : s.settled with
      | some o =>
        rw [trySettle_of_settled hset]
        obtain ⟨t, ht, hle⟩ := speakInv_extract hs hset
        exact ⟨o, t, hset, ht, hle⟩
      | none =>
        refine ⟨Except.ok (), 10000, ?_, ?_, le_rfl⟩ <;>
          · unfold trySettle
            rw [hset]
    · rw [if_neg hc]
      cases hset : s.settled with
      | none => exact absurd (hs.pending hset) hc
      | some o =>
        obtain ⟨t, ht, hle⟩ := speakInv_extract hs hset
        exact ⟨o, t, by simp [hset], ht, hle⟩
  | cons ev rest ih =>
    intro s hs
    unfold speakRun
    by_cases hc : 10000 ≤ ev.fst ∧ s.timerCleared = false
    · rw [if_pos hc]
      exact ih _ (speakInv_speakStep (speakInv_trySettle hs le_rfl) ev
        (Or.inr (trySettle_isSome s _ 10000)))
    · rw [if_neg hc]
      apply ih _ (speakInv_speakStep hs ev ?_)
      rcases not_and_or.mp hc with h | h
      · exact Or.inl (by omega)
      · right
        cases hset : s.settled with
        | some v => rfl
        | none => exact absurd (hs.pending hset) h

/-- A resolve attempt cannot introduce a reject settlement. -/
theorem trySettle_ok_prop {s : SpeakState}
    (hok : ∀ o, s.settled = some o → o = Except.ok ()) (t : Nat) :
    ∀ o, (trySettle s (Except.ok ()) t).settled = some o → o = Except.ok () := by
  intro o h
  cases hset : s.settled with
  | some v =>
    simp only [trySettle, hset, Option.some.injEq] at h
    exact h ▸ hok v hset
  | none =>
    simp only [trySettle, hset, Option.some.injEq] at h
    exact h.symm

/-- The end handler cannot introduce a reject settlement. -/
theorem speakStep_ok_prop {s : SpeakState}
    (hok : ∀ o, s.settled = some o → o = Except.ok ()) (t : Nat) :
    ∀ o, (speakStep s (t, SynthEvent.ended)).settled = some o → o = Except.ok () := by
  intro o h
  unfold speakStep at h
  exact trySettle_ok_prop (s := { s with timerCleared := true })
    (fun v hv => hok v hv) t o h

/-- The only reject path is the error handler, so a run over a trace
without error events settles with a resolve. -/
theorem speakRun_ok (events : List (Nat × SynthEvent)) :
    ∀ s : SpeakState,
      (∀ p ∈ events, p.snd = SynthEvent.ended) →
      (∀ o, s.settled = some o → o = Except.ok ()) →
      ∀ o, (speakRun s events).settled = some o → o = Except.ok () := by
  induction events with
  | nil =>
    intro s _ hok o h
    unfold speakRun at h
    split at h
    · exact trySettle_ok_prop hok 10000 o h
    · exact hok o h
  | cons ev rest ih =>
    intro s hev hok o
    have hevtl : ∀ p ∈ rest, p.snd = SynthEvent.ended :=
      fun p hp => hev p (List.mem_cons_of_mem _ hp)
    have hevhd : ev.snd = SynthEvent.ended := hev ev (List.mem_cons_self _ _)
    obtain ⟨t, e⟩ := ev
    cases e with
    | errored m => exact absurd hevhd (by simp)
    | ended =>
      intro h
      unfold speakRun at h
      split at h
      · exact ih _ hevtl (speakStep_ok_prop (trySettle_ok_prop hok 10000) t) o h
      · exact ih _ hevtl (speakStep_ok_prop hok t) o h

/-- One event never changes an already settled value or its time. -/
theorem speakStep_frozen {s : SpeakState} {o : Except String Unit}
    (h : s.settled = some o) (ev : Nat × SynthEvent) :
    (speakStep s ev).settled = some o ∧ (speakStep s ev).settleTime = s.settleTime := by
  obtain ⟨t, e⟩ := ev
  cases e with
  | ended =>
    have heq : speakStep s (t, SynthEvent.ended) = { s with timerCleared := true } := by
      unfold speakStep trySettle
      simp [h]
    rw [heq]
    exact ⟨h, rfl⟩
  | errored m =>
    have heq : speakStep s (t, SynthEvent.errored m) = s := by
      unfold speakStep
      exact trySettle_of_settled h _ _
    rw [heq]
    exact ⟨h, rfl⟩

/-- A whole run never changes an already settled value or its time: every
later settlement attempt is a no-op. -/
theorem speakRun_frozen (events : List (Nat × SynthEvent)) :
    ∀ (s : SpeakState) (o : Except String Unit), s.settled = some o →
      (speakRun s events).settled = some o ∧
      (speakRun s events).settleTime = s.settleTime := by
  induction events with
  | nil =>
    intro s o h
    unfold speakRun
    split
    · rw [trySettle_of_settled h]
      exact ⟨h, rfl⟩
    · exact ⟨h, rfl⟩
  | cons ev rest ih =>
    intro s o h
    unfold speakRun
    split
    · rw [trySettle_of_settled h]
      obtain ⟨h1, h2⟩ := speakStep_frozen h ev
      obtain ⟨h3, h4⟩ := ih _ _ h1
      exact ⟨h3, h4.trans h2⟩
    · obtain ⟨h1, h2⟩ := speakStep_frozen h ev
      obtain ⟨h3, h4⟩ := ih _ _ h1
      exact ⟨h3, h4.trans h2⟩

/-! ### Claim C1 -/

/-- Claim C1, counterexample: with the non-empty input hi and a remote
response consisting of one space, sendMessage resolves with a Message
whose content is the empty string, because the source checks only that
the raw response is non-empty before trimming it. -/
theorem c1_counterexample :
    sendMessage "hi" 0 (fun _ => GenResult.ok " ") =
      Except.ok { id := "0", role := Role.assistant, content := "", timestamp := 0 } := by
  rfl

/-- Claim C1 (amended): for every input, sendMessage either rejects with a
GenerationError or resolves with role assistant and content equal to the
trimmed response text; since only the untrimmed text is checked against
the empty string, the content of a success is empty exactly when the
response was non-empty but all whitespace. -/
theorem c1_sendMessage_content (msg : String) (now : Nat) (gen : String → GenResult) :
    (∃ e, sendMessage msg now gen = Except.error e) ∨
    (∃ text, gen (chatPrompt msg) = GenResult.ok text ∧ text ≠ "" ∧
      sendMessage msg now gen = Except.ok
        { id := jsNatToString now
          role := Role.assistant
          content := jsTrim text
          timestamp := now }) := by
  cases h : gen (chatPrompt msg) with
  | threw m =>
    exact Or.inl ⟨"Failed to get AI response: " ++ m, by simp [sendMessage, h]⟩
  | ok text =>
    by_cases ht : text = ""
    · exact Or.inl ⟨"Failed to get AI response: Empty response from AI",
        by simp [sendMessage, h, ht]⟩
    · exact Or.inr ⟨text, rfl, ht, by simp [sendMessage, h, ht]⟩

/-! ### Claim C2 -/

/-- Claim C2: for every file input, read outcome, and remote outcome,
analyzeImage either rejects with an AnalysisError or resolves with
non-empty text; it never resolves with the empty string. -/
theorem c2_analyzeImage_never_empty (f : JsFile) (read : ReadOutcome)
    (gen : VisionRequest → GenResult) (host : Host) :
    (∃ e, analyzeImage f read gen host = Except.error e) ∨
    (∃ t, analyzeImage f read gen host = Except.ok t ∧ t ≠ "") := by
  cases read with
  | failure =>
    exact Or.inl ⟨"Failed to analyze medical image: " ++ host.nullSplitMessage,
      by simp [analyzeImage, readerPromise]⟩
  | success =>
    cases h : gen (mkVisionRequest f (dataUrl f)) with
    | threw m =>
      exact Or.inl ⟨"Failed to analyze medical image: " ++ m,
        by simp [analyzeImage, readerPromise, h]⟩
    | ok text =>
      by_cases ht : text = ""
      · exact Or.inl ⟨"Failed to analyze medical image: Empty response from AI",
          by simp [analyzeImage, readerPromise, h, ht]⟩
      · exact Or.inr ⟨text, by simp [analyzeImage, readerPromise, h, ht], ht⟩

/-! ### Claim C3 -/

/-- Claim C3: with a null recognition handle, startListening rejects at
once with the fixed descriptive string and performs no host action (no
session started); with a null synthesis handle, speak rejects at once with
the fixed descriptive string, arms no timer and submits no utterance. -/
theorem c3_capability_missing_rejects (vs : VoiceService) (text : String)
    (revents : List RecEvent) (sevents : List (Nat × SynthEvent)) :
    (vs.recognition = none →
      startListening vs revents =
        ([], some (Except.error "Speech recognition not supported"))) ∧
    (vs.synthesis = none →
      speak vs text sevents =
        ([], { settled := some (Except.error "Speech synthesis not supported")
               settleTime := some 0
               timerCleared := false })) := by
  constructor
  · intro h
    unfold startListening
    rw [h]
  · intro h
    unfold speak
    rw [h]

/-- Claim C3, witness: a host with neither capability, concrete inputs. -/
theorem c3_witness :
    ({ recognition := none, synthesis := none } : VoiceService).recognition = none ∧
    ({ recognition := none, synthesis := none } : VoiceService).synthesis = none ∧
    startListening { recognition := none, synthesis := none } [] =
      ([], some (Except.error "Speech recognition not supported")) ∧
    speak { recognition := none, synthesis := none } "hello" [] =
      ([], { settled := some (Except.error "Speech synthesis not supported")
             settleTime := some 0
             timerCleared := false }) :=
  ⟨rfl, rfl,
   (c3_capability_missing_rejects { recognition := none, synthesis := none } "hello" [] []).1 rfl,
   (c3_capability_missing_rejects { recognition := none, synthesis := none } "hello" [] []).2 rfl⟩

/-! ### Claim C4 -/

/-- Claim C4: in an environment with a synthesis handle, every call to
speak settles at a time within the fixed 10000 ms ceiling, for every host
event trace, so the promise never stays pending, even when the synthesis
engine fires no completion event at all; and when the trace contains no
error event, the settlement is a resolve (end event or fallback timer,
whichever comes first). -/
theorem c4_speak_settles (vs : VoiceService) (text : String)
    (events : List (Nat × SynthEvent)) (h : vs.synthesis = some ()) :
    ∃ o t, (speak vs text events).2.settled = some o ∧
      (speak vs text events).2.settleTime = some t ∧ t ≤ 10000 ∧
      ((∀ p ∈ events, p.snd = SynthEvent.ended) → o = Except.ok ()) := by
  unfold speak
  rw [h]
  have hinv : SpeakInv initSpeakState :=
    ⟨rfl, (fun t ht => nomatch ht), (fun _ => rfl)⟩
  obtain ⟨o, t, h1, h2, h3⟩ := speakRun_settles events initSpeakState hinv
  refine ⟨o, t, h1, h2, h3, fun hev => ?_⟩
  exact speakRun_ok events initSpeakState hev (fun v hv => by cases hv) o h1

/-- Claim C4, witness: synthesis present, empty event trace (the engine
never fires its completion event): the fallback timer settles the call. -/
theorem c4_witness :
    ({ recognition := none, synthesis := some () } : VoiceService).synthesis = some () ∧
    (∃ o t, (speak { recognition := none, synthesis := some () } "hello" []).2.settled = some o ∧
      (speak { recognition := none, synthesis := some () } "hello" []).2.settleTime = some t ∧
      t ≤ 10000 ∧
      ((∀ p ∈ ([] : List (Nat × SynthEvent)), p.snd = SynthEvent.ended) → o = Except.ok ())) :=
  ⟨rfl, c4_speak_settles { recognition := none, synthesis := some () } "hello" [] rfl⟩

/-! ### Claim C5 -/

/-- Claim C5: settlement of the speak promise is idempotent. On an already
settled state, any further settle attempt is the identity (it raises no
error and changes nothing), and processing any further event trace —
including a natural end event or an error event after the timer already
resolved — leaves the settled value and the settlement time unchanged. -/
theorem c5_settlement_idempotent (s : SpeakState) (o v : Except String Unit)
    (t : Nat) (events : List (Nat × SynthEvent)) (h : s.settled = some o) :
    trySettle s v t = s ∧
    (speakRun s events).settled = some o ∧
    (speakRun s events).settleTime = s.settleTime :=
  ⟨trySettle_of_settled h v t,
   (speakRun_frozen events s o h).1,
   (speakRun_frozen events s o h).2⟩

/-- Claim C5, witness: a promise resolved by the fallback timer at
10000 ms then hit by a late error event and a further reject attempt:
both are no-ops and the resolved result is unchanged. -/
theorem c5_witness :
    (⟨some (Except.ok ()), some 10000, false⟩ : SpeakState).settled = some (Except.ok ()) ∧
    trySettle ⟨some (Except.ok ()), some 10000, false⟩ (Except.error "boom") 10500 =
      ⟨some (Except.ok ()), some 10000, false⟩ ∧
    (speakRun ⟨some (Except.ok ()), some 10000, false⟩
        [(10500, SynthEvent.errored "late")]).settled = some (Except.ok ()) ∧
    (speakRun ⟨some (Except.ok ()), some 10000, false⟩
        [(10500, SynthEvent.errored "late")]).settleTime =
      (⟨some (Except.ok ()), some 10000, false⟩ : SpeakState).settleTime :=
  ⟨rfl,
   (c5_settlement_idempotent ⟨some (Except.ok ()), some 10000, false⟩ (Except.ok ())
     (Except.error "boom") 10500 [(10500, SynthEvent.errored "late")] rfl).1,
   (c5_settlement_idempotent ⟨some (Except.ok ()), some 10000, false⟩ (Except.ok ())
     (Except.error "boom") 10500 [(10500, SynthEvent.errored "late")] rfl).2.1,
   (c5_settlement_idempotent ⟨some (Except.ok ()), some 10000, false⟩ (Except.ok ())
     (Except.error "boom") 10500 [(10500, SynthEvent.errored "late")] rfl).2.2⟩

/-! ### Claim C6 -/

/-- Claim C6, counterexample: two concurrent sendMessage calls with
different inputs whose results are constructed during the same millisecond
(Date.now() = 7 for both) produce Messages with the same id string 7, so
the ids are not distinct. -/
theorem c6_counterexample :
    sendMessage "a" 7 (fun _ => GenResult.ok "x") =
      Except.ok { id := jsNatToString 7, role := Role.assistant, content := "x", timestamp := 7 } ∧
    sendMessage "b" 7 (fun _ => GenResult.ok "y") =
      Except.ok { id := jsNatToString 7, role := Role.assistant, content := "y", timestamp := 7 } ∧
    jsNatToString 7 = "7" := by
  refine ⟨rfl, rfl, ?_⟩
  unfold jsNatToString
  rw [if_neg (by norm_num),
    Nat.digits_def' (by norm_num : (1 : Nat) < 10) (by norm_num : 0 < 7)]
  norm_num
  rfl

/-- Claim C6 (amended): two concurrent successful sendMessage calls are
content-independent — each content is the trim of that call's own
response — and their ids are distinct whenever the two results are
constructed at distinct clock values; at equal clock values the ids
coincide. -/
theorem c6_independent_messages (msg1 msg2 : String) (n1 n2 : Nat)
    (gen1 gen2 : String → GenResult) (t1 t2 : String)
    (h1 : gen1 (chatPrompt msg1) = GenResult.ok t1) (ht1 : t1 ≠ "")
    (h2 : gen2 (chatPrompt msg2) = GenResult.ok t2) (ht2 : t2 ≠ "")
    (hn : n1 ≠ n2) :
    sendMessage msg1 n1 gen1 = Except.ok
      { id := jsNatToString n1, role := Role.assistant, content := jsTrim t1, timestamp := n1 } ∧
    sendMessage msg2 n2 gen2 = Except.ok
      { id := jsNatToString n2, role := Role.assistant, content := jsTrim t2, timestamp := n2 } ∧
    jsNatToString n1 ≠ jsNatToString n2 := by
  refine ⟨?_, ?_, fun he => hn (jsNatToString_injective he)⟩
  · simp [sendMessage, h1, ht1]
  · simp [sendMessage, h2, ht2]

/-- Claim C6, witness: two calls at distinct clock values 7 and 8. -/
theorem c6_witness :
    (fun _ : String => GenResult.ok "x") (chatPrompt "a") = GenResult.ok "x" ∧
    (fun _ : String => GenResult.ok "y") (chatPrompt "b") = GenResult.ok "y" ∧
    ("x" : String) ≠ "" ∧ ("y" : String) ≠ "" ∧ (7 : Nat) ≠ 8 ∧
    (sendMessage "a" 7 (fun _ => GenResult.ok "x") = Except.ok
      { id := jsNatToString 7, role := Role.assistant, content := jsTrim "x", timestamp := 7 } ∧
     sendMessage "b" 8 (fun _ => GenResult.ok "y") = Except.ok
      { id := jsNatToString 8, role := Role.assistant, content := jsTrim "y", timestamp := 8 } ∧
     jsNatToString 7 ≠ jsNatToString 8) :=
  ⟨rfl, rfl, by decide, by decide, by decide,
   c6_independent_messages "a" "b" 7 8 (fun _ => GenResult.ok "x") (fun _ => GenResult.ok "y")
     "x" "y" rfl (by decide) rfl (by decide) (by decide)⟩

/-! ### Claim C7 -/

/-- Claim C7, counterexample: for a file whose MIME type contains a comma,
the submitted inline data is index 1 of the full comma split — the segment
between the first and second commas — not the whole substring after the
first comma of the data URL, so the two differ. -/
theorem c7_counterexample :
    (analyzeRequest { name := "scan", type := "a,b", bytes := [1, 2, 3] }).data =
      some "b;base64".data ∧
    afterFirstComma (dataUrl { name := "scan", type := "a,b", bytes := [1, 2, 3] }) =
      some "b;base64,AQID".data ∧
    (analyzeRequest { name := "scan", type := "a,b", bytes := [1, 2, 3] }).data ≠
      afterFirstComma (dataUrl { name := "scan", type := "a,b", bytes := [1, 2, 3] }) := by
  refine ⟨by decide, by decide, by decide⟩

/-- Claim C7 (amended): for every file whose MIME type contains no comma,
analyzeImage submits exactly the pair of the fixed instruction prompt and
the inline payload whose data is the substring of the base64 data URL
after its first comma — equal to the base64 encoding of the file bytes —
and whose MIME type is the type field of the file. -/
theorem c7_vision_request (f : JsFile) (h : (',' : Char) ∉ f.type.data) :
    analyzeRequest f =
      { prompt := analysisPrompt
        data := afterFirstComma (dataUrl f)
        mimeType := f.type } ∧
    afterFirstComma (dataUrl f) = some (base64Encode f.bytes) := by
  have hpre := dataUrl_prefix_no_comma h
  have hafter : afterFirstComma (dataUrl f) = some (base64Encode f.bytes) := by
    rw [dataUrl_decomp]
    exact afterFirstComma_append _ hpre
  refine ⟨?_, hafter⟩
  unfold analyzeRequest mkVisionRequest
  simp only [VisionRequest.mk.injEq, true_and, and_true]
  rw [hafter, dataUrl_decomp, splitComma_append _ hpre,
    splitComma_no_comma (base64Encode_no_comma f.bytes)]
  rfl

/-- Claim C7, witness: a png file with a comma-free MIME type. -/
theorem c7_witness :
    (',' : Char) ∉ ("image/png" : String).data ∧
    (analyzeRequest { name := "scan", type := "image/png", bytes := [1, 2, 3] } =
      { prompt := analysisPrompt
        data := afterFirstComma (dataUrl { name := "scan", type := "image/png", bytes := [1, 2, 3] })
        mimeType := "image/png" } ∧
     afterFirstComma (dataUrl { name := "scan", type := "image/png", bytes := [1, 2, 3] }) =
       some (base64Encode [1, 2, 3])) :=
  ⟨by decide, c7_vision_request { name := "scan", type := "image/png", bytes := [1, 2, 3] } (by decide)⟩

/-! ### Claim C8 -/

/-- Claim C8: at module load, a falsy (absent or empty) Gemini API key
environment value makes the aiService module throw at once, and a truthy
value is handed to the generative client; the six remote-store values are
packed and passed to the remote-service client with no local validation,
so the firebase step is total and a missing store value does not throw in
this layer. -/
theorem c8_config_validation (env : Env) :
    (jsFalsy env.geminiApiKey = true →
      initGemini env = Except.error "Gemini API key is required") ∧
    (jsFalsy env.geminiApiKey = false →
      initGemini env = Except.ok (env.geminiApiKey.getD "")) ∧
    initFirebase env =
      { apiKey := env.firebaseApiKey
        authDomain := env.firebaseAuthDomain
        projectId := env.firebaseProjectId
        storageBucket := env.firebaseStorageBucket
        messagingSenderId := env.firebaseMessagingSenderId
        appId := env.firebaseAppId } := by
  refine ⟨?_, ?_, rfl⟩
  · intro h
    simp [initGemini, h]
  · intro h
    simp [initGemini, h]

/-- Claim C8, witness: an environment with every value absent: the Gemini
check throws, while the firebase record is built from the six undefined
values without any local failure. -/
theorem c8_witness :
    jsFalsy (none : Option String) = true ∧
    initGemini
      { geminiApiKey := none, firebaseApiKey := none, firebaseAuthDomain := none
        firebaseProjectId := none, firebaseStorageBucket := none
        firebaseMessagingSenderId := none, firebaseAppId := none } =
      Except.error "Gemini API key is required" ∧
    initFirebase
      { geminiApiKey := none, firebaseApiKey := none, firebaseAuthDomain := none
        firebaseProjectId := none, firebaseStorageBucket := none
        firebaseMessagingSenderId := none, firebaseAppId := none } =
      { apiKey := none, authDomain := none, projectId := none
        storageBucket := none, messagingSenderId := none, appId := none } :=
  ⟨rfl,
   (c8_config_validation
     { geminiApiKey := none, firebaseApiKey := none, firebaseAuthDomain := none
       firebaseProjectId := none, firebaseStorageBucket := none
       firebaseMessagingSenderId := none, firebaseAppId := none }).1 rfl,
   (c8_config_validation
     { geminiApiKey := none, firebaseApiKey := none, firebaseAuthDomain := none
       firebaseProjectId := none, firebaseStorageBucket := none
       firebaseMessagingSenderId := none, firebaseAppId := none }).2.2⟩

/-! ### Claim C9 -/

/-- Claim C9: the inner file-read promise of analyzeImage always resolves
(for every read outcome there is a resolved value and no rejection), it
resolves with null after a failed read, and that failure surfaces only
later, as the TypeError thrown by splitting null, caught and rewrapped by
the surrounding handler as an AnalysisError. -/
theorem c9_reader_resolve_only (f : JsFile) (r : ReadOutcome)
    (gen : VisionRequest → GenResult) (host : Host) :
    (∃ v, readerPromise f r = Except.ok v) ∧
    readerPromise f ReadOutcome.failure = Except.ok none ∧
    analyzeImage f ReadOutcome.failure gen host =
      Except.error ("Failed to analyze medical image: " ++ host.nullSplitMessage) := by
  refine ⟨?_, rfl, rfl⟩
  cases r with
  | success => exact ⟨some (dataUrl f), rfl⟩
  | failure => exact ⟨none, rfl⟩

/-! ### Claim C10 -/

/-- Claim C10, counterexample: in a host whose window is defined, carries
the recognition constructor, but lacks speechSynthesis, the module loads
(so window being defined does not force both capabilities), and a call to
speak takes the null-capability rejection branch even though window is
defined — refuting that this branch is reachable only when window is
entirely undefined. -/
theorem c10_counterexample :
    voiceServiceInit (some { webkitSpeechRecognition := some (), speechSynthesis := none }) =
      Except.ok { recognition := some (), synthesis := none } ∧
    speak { recognition := some (), synthesis := none } "hello" [] =
      ([], { settled := some (Except.error "Speech synthesis not supported")
             settleTime := some 0
             timerCleared := false }) :=
  ⟨rfl, rfl⟩

/-- Claim C10 (amended): capability detection at module load tests only
whether window is defined; an undefined window yields null handles for
both capabilities; a defined window without the recognition constructor
makes module load itself throw; and any successfully constructed service
from a defined window has a non-null recognition handle, so the
null-recognition rejection branch of startListening is reachable only
when window is entirely undefined — while the null-synthesis branch of
speak is additionally reachable from a defined window lacking
speechSynthesis. -/
theorem c10_capability_detection (w : HostWindow) (vs : VoiceService) :
    voiceServiceInit none = Except.ok { recognition := none, synthesis := none } ∧
    (w.webkitSpeechRecognition = none → ∃ e, voiceServiceInit (some w) = Except.error e) ∧
    (voiceServiceInit (some w) = Except.ok vs → vs.recognition = some ()) := by
  refine ⟨rfl, ?_, ?_⟩
  · intro h
    refine ⟨"TypeError: window.webkitSpeechRecognition is not a constructor", ?_⟩
    simp [voiceServiceInit, h]
  · intro h
    cases hw : w.webkitSpeechRecognition with
    | none =>
      rw [voiceServiceInit, hw] at h
      cases h
    | some u =>
      rw [voiceServiceInit, hw] at h
      injection h with h2
      rw [← h2]

/-- Claim C10, witness: a window without the constructor makes load throw;
a window with both members loads with a non-null recognition handle. -/
theorem c10_witness :
    ({ webkitSpeechRecognition := none, speechSynthesis := some () } : HostWindow).webkitSpeechRecognition = none ∧
    (∃ e, voiceServiceInit (some { webkitSpeechRecognition := none, speechSynthesis := some () }) =
      Except.error e) ∧
    voiceServiceInit (some { webkitSpeechRecognition := some (), speechSynthesis := some () }) =
      Except.ok { recognition := some (), synthesis := some () } ∧
    ({ recognition := some (), synthesis := some () } : VoiceService).recognition = some () :=
  ⟨rfl,
   (c10_capability_detection { webkitSpeechRecognition := none, speechSynthesis := some () }
     { recognition := none, synthesis := none }).2.1 rfl,
   rfl,
   (c10_capability_detection { webkitSpeechRecognition := some (), speechSynthesis := some () }
     { recognition := some (), synthesis := some () }).2.2 rfl⟩

end MedicalAi
